import Mathlib

/-
Verification development for the ThinkQuest study-assistant application
(src/app.py). The pipeline glues four input modalities to a remote
chat-completion service. This file gives a shallow embedding of the
orchestration logic of class AIStudyAssistant and proves the testable
properties of the specification against it.

Modelling conventions:
- The remote chat-completion endpoint (Groq client, app.py line 89) is an
  abstract function parameter of type String -> String -> Option String;
  a result of none models a raised transport or API exception that the
  try/except in get_ai_response catches.
- An uploaded image or PDF is modelled by the data the third-party library
  extracts from it: some fragments / some pages when decoding succeeds
  (EasyOCR fragment list, PyMuPDF page-text list), none when the library
  raises an exception that the except branch catches.
- Observable side effects of one button-click handler (remote calls made,
  st.error, st.warning, rendered previews and hints) are collected in a
  list of Effect values; session state is the SessionState record holding
  the three per-modality response lists of __init__ (app.py lines 20-25).
-/

/-- Observable effects emitted by one interaction: a remote
chat-completion call carrying (system message, user message), an st.error
report, an st.warning, a rendered preview of processed text, and a
rendered hint. -/
inductive Effect where
  | remoteCall : String → String → Effect
  | errorMsg : String → Effect
  | warningMsg : String → Effect
  | shownPreview : String → Effect
  | shownHint : String → Effect
deriving DecidableEq

/-- Session state of app.py lines 20-25: one response list per modality,
each holding (input_text, response_text) pairs. -/
structure SessionState where
  text_responses : List (String × String)
  image_responses : List (String × String)
  pdf_responses : List (String × String)
deriving DecidableEq

/-- Fixed part of the system message of get_ai_response (app.py lines
70-76). Python concatenates the adjacent string literals of the source
into this single constant; the f-string then appends the topic type and
"-related ". -/
def sm_fixed : String :=
  "You are an AI study assistant. Provide hints and approaches to solve problems, but don\x27t give exact answers. When crafting your response, consider the following prompts and guidelines: the answer should be versatile and elicit curiosity. Ensure each hint is unique and encourages critical thinking. Focus on "

/-- Topic clause chosen by the if/elif/else chain of app.py lines 79-86
by exact string match on topic_type. -/
def topic_clause (topic_type : String) : String :=
  if topic_type = "Coding" then "topics and provide specific coding hints."
  else if topic_type = "Math" then "topics and provide specific mathematical hints."
  else if topic_type = "Science" then "topics and provide specific scientific hints."
  else "general education topics."

/-- System message before the topic clause is appended (app.py lines
70-76). -/
def system_message_base (topic_type : String) : String :=
  sm_fixed ++ (topic_type ++ "-related ")

/-- Complete system instruction sent to the model: base plus the topic
clause appended by += (app.py lines 79-86). -/
def system_message (topic_type : String) : String :=
  system_message_base topic_type ++ topic_clause topic_type

/-- Preview shown for long processed text (app.py line 337 and line 374):
strings of length below 500 are shown unchanged, otherwise the first 500
characters followed by "..." are shown. -/
def preview (question : String) : String :=
  if question.length < 500 then question else question.take 500 ++ "..."

/-- OCR step of process_image (app.py lines 27-44). The uploaded file is
modelled by the fragment list EasyOCR recognizes (detail=0), or none when
decoding raises and the except branch reports the error and returns None.
The Python error text interpolates the exception; the fixed descriptor is
kept here. -/
def process_image (image_file : Option (List String)) : Option String × List Effect :=
  match image_file with
  | some results => (some (String.intercalate " " results), [])
  | none => (none, [Effect.errorMsg "Error processing image with EasyOCR"])

/-- PDF step of extract_text_from_pdf (app.py lines 46-61). The uploaded
stream is modelled by the per-page text list PyMuPDF extracts in page
order; the loop accumulates text += page.get_text(). A stream that fitz
cannot open is none: the except branch reports the error and returns
None. -/
def extract_text_from_pdf (pdf_file : Option (List String)) : Option String × List Effect :=
  match pdf_file with
  | some pages => (some (pages.foldl (fun text page => text ++ page) ""), [])
  | none => (none, [Effect.errorMsg "Error processing PDF"])

/-- Model invocation of get_ai_response (app.py lines 63-100): builds the
system message, sends the two-message exchange, returns the generated
content, or reports the error and returns None when the call raises. -/
def get_ai_response (remote : String → String → Option String)
    (input_text topic_type : String) : Option String × List Effect :=
  match remote (system_message topic_type) input_text with
  | some content =>
      (some content, [Effect.remoteCall (system_message topic_type) input_text])
  | none =>
      (none, [Effect.remoteCall (system_message topic_type) input_text,
              Effect.errorMsg "Error getting AI response from Groq"])

/-- Rendering and storing of display_response (app.py lines 329-351):
non-text modalities show a truncated preview of the processed text, then
the hint is shown and the (question, hint) pair is appended to the list
selected by exact match on response_type. -/
def display_response (s : SessionState) (question hint response_type : String) :
    SessionState × List Effect :=
  let effs :=
    if response_type ≠ "text" then
      [Effect.shownPreview (preview question), Effect.shownHint hint]
    else
      [Effect.shownHint hint]
  let s2 :=
    if response_type = "text" then
      { s with text_responses := s.text_responses ++ [(question, hint)] }
    else if response_type = "image" then
      { s with image_responses := s.image_responses ++ [(question, hint)] }
    else if response_type = "pdf" then
      { s with pdf_responses := s.pdf_responses ++ [(question, hint)] }
    else s
  (s2, effs)

/-- Click handler of the text tab (app.py lines 285-292): warn on blank
input, otherwise call the model and display/store a non-empty hint. -/
def render_text_tab (remote : String → String → Option String)
    (topic_type user_input : String) (s : SessionState) : SessionState × List Effect :=
  if user_input ≠ "" then
    match get_ai_response remote user_input topic_type with
    | (some hint, effs) =>
        if hint ≠ "" then
          let res := display_response s user_input hint "text"
          (res.1, effs ++ res.2)
        else (s, effs)
    | (none, effs) => (s, effs)
  else (s, [Effect.warningMsg "Please enter a question."])

/-- Click handler of the image tab (app.py lines 300-309): warn when no
file is uploaded; otherwise run OCR, and only when it yields a truthy
(non-None, non-empty) string call the model and display/store a
non-empty hint. -/
def render_image_tab (remote : String → String → Option String)
    (topic_type : String) (image_file : Option (Option (List String)))
    (s : SessionState) : SessionState × List Effect :=
  match image_file with
  | some img =>
      match process_image img with
      | (some text, effs1) =>
          if text ≠ "" then
            match get_ai_response remote text topic_type with
            | (some hint, effs2) =>
                if hint ≠ "" then
                  let res := display_response s text hint "image"
                  (res.1, effs1 ++ (effs2 ++ res.2))
                else (s, effs1 ++ effs2)
            | (none, effs2) => (s, effs1 ++ effs2)
          else (s, effs1)
      | (none, effs1) => (s, effs1)
  | none => (s, [Effect.warningMsg "Please upload an image."])

/-- Click handler of the PDF tab (app.py lines 317-326): warn when no
file is uploaded; otherwise extract text, and only when it yields a
truthy string call the model and display/store a non-empty hint. -/
def render_pdf_tab (remote : String → String → Option String)
    (topic_type : String) (pdf_file : Option (Option (List String)))
    (s : SessionState) : SessionState × List Effect :=
  match pdf_file with
  | some doc =>
      match extract_text_from_pdf doc with
      | (some text, effs1) =>
          if text ≠ "" then
            match get_ai_response remote text topic_type with
            | (some hint, effs2) =>
                if hint ≠ "" then
                  let res := display_response s text hint "pdf"
                  (res.1, effs1 ++ (effs2 ++ res.2))
                else (s, effs1 ++ effs2)
            | (none, effs2) => (s, effs1 ++ effs2)
          else (s, effs1)
      | (none, effs1) => (s, effs1)
  | none => (s, [Effect.warningMsg "Please upload a PDF file."])

/-- Discriminator for remote chat-completion call effects. -/
def isRemoteCall : Effect → Bool
  | Effect.remoteCall _ _ => true
  | _ => false

/-- Holds when an effect list records no remote chat-completion call. -/
def noRemoteCall (effs : List Effect) : Bool :=
  effs.all (fun e => !(isRemoteCall e))

/-- Substring containment for strings: sub occurs contiguously in s. -/
def containsStr (s sub : String) : Prop :=
  ∃ pre post : String, s = pre ++ (sub ++ post)

/-- Opening sentence of the system message, before the
hints-not-answers policy sentence. -/
def sm_intro : String := "You are an AI study assistant. "

/-- Fixed hints-not-answers policy sentence of the system message
(app.py lines 71-72). -/
def policy_text : String :=
  "Provide hints and approaches to solve problems, but don\x27t give exact answers."

/-- Fixed remainder of the system message between the policy sentence
and the interpolated topic type. -/
def sm_mid : String :=
  " When crafting your response, consider the following prompts and guidelines: the answer should be versatile and elicit curiosity. Ensure each hint is unique and encourages critical thinking. Focus on "

/-- Character-wise lowercasing, modelling the Python str.lower call of
the keyword veto. -/
def lowerStr (s : String) : String := String.mk (s.data.map Char.toLower)

/-- Boolean test that one character list starts with another. -/
def isPrefixSeg : List Char → List Char → Bool
  | [], _ => true
  | _ :: _, [] => false
  | a :: as, b :: bs => a == b && isPrefixSeg as bs

/-- Boolean test that sub occurs contiguously in a character list. -/
def hasSubseg (sub : List Char) : List Char → Bool
  | [] => isPrefixSeg sub []
  | c :: rest => isPrefixSeg sub (c :: rest) || hasSubseg sub rest

/-- Case-insensitive substring containment: needle (given in lower case)
occurs in the lowercased haystack. -/
def containsCI (haystack needle : String) : Bool :=
  hasSubseg needle.data (lowerStr haystack).data

/-- Modelled from the spec: src/ holds only one of the nine revisions the
spec describes, and the revision whose get_ai_response adds the local
keyword veto is not under src/. Per the spec, when the user text contains
the substring "exact answer" or "exact solution" case-insensitively, the
model is bypassed entirely and a fixed refusal string is returned;
otherwise the behaviour is that of get_ai_response in src/app.py. The
refusal text itself is not given by the spec, so it is a parameter. -/
def get_ai_response_veto (refusal : String)
    (remote : String → String → Option String)
    (input_text topic_type : String) : Option String × List Effect :=
  if containsCI input_text "exact answer" || containsCI input_text "exact solution" then
    (some refusal, [])
  else
    get_ai_response remote input_text topic_type

/-- Holds when every response list of s2 extends the corresponding list
of s by some (possibly empty) suffix. -/
def extendsState (s s2 : SessionState) : Prop :=
  (∃ t, s2.text_responses = s.text_responses ++ t) ∧
  (∃ t, s2.image_responses = s.image_responses ++ t) ∧
  (∃ t, s2.pdf_responses = s.pdf_responses ++ t)

/-- Concrete string of exactly 500 characters, used at the truncation
boundary. -/
def sample500 : String := String.mk (List.replicate 500 'a')

lemma sample500_len : sample500.length = 500 :=
  List.length_replicate 500 'a'

lemma data_len (s : String) : s.length = s.data.length := rfl

lemma preview_sample500 : preview sample500 = sample500.take 500 ++ "..." := by
  show (if sample500.length < 500 then sample500 else sample500.take 500 ++ "...") = _
  rw [sample500_len, if_neg (by norm_num)]

set_option maxRecDepth 8192 in
lemma sm_fixed_split : sm_fixed = sm_intro ++ (policy_text ++ sm_mid) := by decide

/-- Claim C2: for every topic_type the assembled system instruction
contains the topic clause selected by exact string match on topic_type,
contains the general-education fallback clause whenever topic_type is
none of Coding, Math, Science, and always contains the fixed
hints-not-answers policy sentence. -/
theorem system_message_contains_clauses (topic_type : String) :
    containsStr (system_message topic_type) (topic_clause topic_type) ∧
    (topic_type ≠ "Coding" → topic_type ≠ "Math" → topic_type ≠ "Science" →
      containsStr (system_message topic_type) "general education topics.") ∧
    containsStr (system_message topic_type) policy_text := by
  refine ⟨⟨system_message_base topic_type, "", ?_⟩, ?_, ?_⟩
  · rw [String.append_empty]
    rfl
  · intro h1 h2 h3
    have hcl : topic_clause topic_type = "general education topics." := by
      simp [topic_clause, h1, h2, h3]
    refine ⟨system_message_base topic_type, "", ?_⟩
    rw [String.append_empty, ← hcl]
    rfl
  · refine ⟨sm_intro, sm_mid ++ ((topic_type ++ "-related ") ++ topic_clause topic_type), ?_⟩
    calc system_message topic_type
        = (sm_fixed ++ (topic_type ++ "-related ")) ++ topic_clause topic_type := rfl
      _ = sm_fixed ++ ((topic_type ++ "-related ") ++ topic_clause topic_type) :=
          String.append_assoc _ _ _
      _ = (sm_intro ++ (policy_text ++ sm_mid)) ++
            ((topic_type ++ "-related ") ++ topic_clause topic_type) := by
          rw [← sm_fixed_split]
      _ = sm_intro ++ ((policy_text ++ sm_mid) ++
            ((topic_type ++ "-related ") ++ topic_clause topic_type)) :=
          String.append_assoc _ _ _
      _ = sm_intro ++ (policy_text ++ (sm_mid ++
            ((topic_type ++ "-related ") ++ topic_clause topic_type))) := by
          rw [String.append_assoc policy_text]

/-- Witness for C2 at the unrecognized topic type History. -/
theorem system_message_contains_clauses_witness :
    containsStr (system_message "History") "general education topics." :=
  (system_message_contains_clauses "History").2.1 (by decide) (by decide) (by decide)

/-- Claim C3 counterexample: at an input of length exactly 500 the code
truncates (len(question) < 500 is the guard in app.py line 337), so the
claimed behaviour for lengths up to and including 500 is violated. -/
theorem preview_claim_counterexample :
    ¬ ((sample500.length > 500 → preview sample500 = sample500.take 500 ++ "...") ∧
       (sample500.length ≤ 500 → preview sample500 = sample500)) := by
  intro hcl
  have h := hcl.2 (le_of_eq sample500_len)
  rw [preview_sample500] at h
  have h2 := congrArg String.length h
  rw [sample500_len, data_len, String.data_append, String.data_take, List.length_append,
    List.length_take, ← data_len, sample500_len] at h2
  norm_num at h2

/-- Claim C3 as amended: inputs of length at least 500 are displayed as
the first 500 characters followed by "...", and inputs of length
strictly below 500 are displayed unchanged. -/
theorem preview_truncates_from_500 (s : String) :
    (500 ≤ s.length → preview s = s.take 500 ++ "...") ∧
    (s.length < 500 → preview s = s) := by
  constructor
  · intro h
    simp only [preview]
    rw [if_neg (by omega)]
  · intro h
    simp only [preview]
    rw [if_pos h]

/-- Witness for the amended C3 at the boundary input and at a short
input. -/
theorem preview_truncates_from_500_witness :
    preview sample500 = sample500.take 500 ++ "..." ∧ preview "ab" = "ab" :=
  ⟨(preview_truncates_from_500 sample500).1 (le_of_eq sample500_len.symm),
   (preview_truncates_from_500 "ab").2 (by decide)⟩

lemma foldl_append_eq_foldr (pages : List String) (acc : String) :
    pages.foldl (fun text page => text ++ page) acc =
      acc ++ pages.foldr (fun page acc2 => page ++ acc2) "" := by
  induction pages generalizing acc with
  | nil => rw [List.foldl_nil, List.foldr_nil, String.append_empty]
  | cons p rest ih =>
      rw [List.foldl_cons, List.foldr_cons, ih (acc ++ p), String.append_assoc]

/-- Claim C4: for a successfully parsed document the extracted text is
the concatenation of the per-page texts in page order, the first page
leftmost. -/
theorem pdf_extracts_pages_in_order (pages : List String) :
    (extract_text_from_pdf (some pages)).1 =
      some (pages.foldr (fun page acc => page ++ acc) "") := by
  show some (pages.foldl (fun text page => text ++ page) "") = _
  rw [foldl_append_eq_foldr, String.empty_append]

/-- Claim C1: whenever the user text contains "exact answer" or "exact
solution" in any letter case, the veto revision returns the fixed
refusal string and records no remote chat-completion call. -/
theorem veto_returns_refusal (refusal : String)
    (remote : String → String → Option String) (input_text topic_type : String)
    (h : containsCI input_text "exact answer" = true ∨
         containsCI input_text "exact solution" = true) :
    get_ai_response_veto refusal remote input_text topic_type = (some refusal, []) ∧
    noRemoteCall (get_ai_response_veto refusal remote input_text topic_type).2 = true := by
  have hb : (containsCI input_text "exact answer" ||
      containsCI input_text "exact solution") = true := by
    rcases h with h | h <;> simp [h]
  constructor
  · simp [get_ai_response_veto, hb]
  · simp [get_ai_response_veto, hb, noRemoteCall]

/-- Witness for C1 on a concrete mixed-case request. -/
theorem veto_returns_refusal_witness :
    get_ai_response_veto "refused" (fun _ _ => some "a hint")
      "Give me the EXACT Answer to question five" "Math" = (some "refused", []) :=
  (veto_returns_refusal "refused" (fun _ _ => some "a hint")
    "Give me the EXACT Answer to question five" "Math" (Or.inl (by decide))).1

lemma extendsState_refl (s : SessionState) : extendsState s s :=
  ⟨⟨[], (List.append_nil _).symm⟩, ⟨[], (List.append_nil _).symm⟩,
   ⟨[], (List.append_nil _).symm⟩⟩

lemma display_response_extends (s : SessionState) (question hint response_type : String) :
    extendsState s (display_response s question hint response_type).1 := by
  by_cases h1 : response_type = "text"
  · simp only [display_response, h1]
    exact ⟨⟨[(question, hint)], rfl⟩, ⟨[], (List.append_nil _).symm⟩,
      ⟨[], (List.append_nil _).symm⟩⟩
  · by_cases h2 : response_type = "image"
    · simp only [display_response, h1, h2, if_false, if_true, if_neg h1, if_pos h2]
      exact ⟨⟨[], (List.append_nil _).symm⟩, ⟨[(question, hint)], rfl⟩,
        ⟨[], (List.append_nil _).symm⟩⟩
    · by_cases h3 : response_type = "pdf"
      · simp only [display_response, if_neg h1, if_neg h2, if_pos h3]
        exact ⟨⟨[], (List.append_nil _).symm⟩, ⟨[], (List.append_nil _).symm⟩,
          ⟨[(question, hint)], rfl⟩⟩
      · simp only [display_response, if_neg h1, if_neg h2, if_neg h3]
        exact extendsState_refl s

lemma render_text_tab_extends (remote : String → String → Option String)
    (topic_type user_input : String) (s : SessionState) :
    extendsState s (render_text_tab remote topic_type user_input s).1 := by
  by_cases hu : user_input = ""
  · simp [render_text_tab, hu]
    exact extendsState_refl s
  · rcases hr : remote (system_message topic_type) user_input with _ | hint
    · simp [render_text_tab, get_ai_response, hu, hr]
      exact extendsState_refl s
    · by_cases hh : hint = ""
      · simp [render_text_tab, get_ai_response, hu, hr, hh]
        exact extendsState_refl s
      · simp [render_text_tab, get_ai_response, hu, hr, hh]
        exact display_response_extends s user_input hint "text"

lemma render_image_tab_extends (remote : String → String → Option String)
    (topic_type : String) (image_file : Option (Option (List String))) (s : SessionState) :
    extendsState s (render_image_tab remote topic_type image_file s).1 := by
  match image_file with
  | none =>
      simp [render_image_tab]
      exact extendsState_refl s
  | some none =>
      simp [render_image_tab, process_image]
      exact extendsState_refl s
  | some (some results) =>
      by_cases ht : String.intercalate " " results = ""
      · simp [render_image_tab, process_image, ht]
        exact extendsState_refl s
      · rcases hr : remote (system_message topic_type) (String.intercalate " " results)
            with _ | hint
        · simp [render_image_tab, process_image, get_ai_response, ht, hr]
          exact extendsState_refl s
        · by_cases hh : hint = ""
          · simp [render_image_tab, process_image, get_ai_response, ht, hr, hh]
            exact extendsState_refl s
          · simp [render_image_tab, process_image, get_ai_response, ht, hr, hh]
            exact display_response_extends s (String.intercalate " " results) hint "image"

lemma render_pdf_tab_extends (remote : String → String → Option String)
    (topic_type : String) (pdf_file : Option (Option (List String))) (s : SessionState) :
    extendsState s (render_pdf_tab remote topic_type pdf_file s).1 := by
  match pdf_file with
  | none =>
      simp [render_pdf_tab]
      exact extendsState_refl s
  | some none =>
      simp [render_pdf_tab, extract_text_from_pdf]
      exact extendsState_refl s
  | some (some pages) =>
      by_cases ht : pages.foldl (fun text page => text ++ page) "" = ""
      · simp [render_pdf_tab, extract_text_from_pdf, ht]
        exact extendsState_refl s
      · rcases hr : remote (system_message topic_type)
            (pages.foldl (fun text page => text ++ page) "") with _ | hint
        · simp [render_pdf_tab, extract_text_from_pdf, get_ai_response, ht, hr]
          exact extendsState_refl s
        · by_cases hh : hint = ""
          · simp [render_pdf_tab, extract_text_from_pdf, get_ai_response, ht, hr, hh]
            exact extendsState_refl s
          · simp [render_pdf_tab, extract_text_from_pdf, get_ai_response, ht, hr, hh]
            exact display_response_extends s
              (pages.foldl (fun text page => text ++ page) "") hint "pdf"

/-- Claim C5: every click-handler run only ever extends the three
response lists (so lengths never decrease and previously appended
entries are never modified or deleted), and a successful run appends
exactly one (input_text, response_text) pair to the list of the selected
modality, leaving the other two lists unchanged. -/
theorem response_lists_append_only (remote : String → String → Option String)
    (topic_type user_input : String)
    (image_file pdf_file : Option (Option (List String))) (s : SessionState) :
    extendsState s (render_text_tab remote topic_type user_input s).1 ∧
    extendsState s (render_image_tab remote topic_type image_file s).1 ∧
    extendsState s (render_pdf_tab remote topic_type pdf_file s).1 ∧
    (∀ hint : String, user_input ≠ "" →
      remote (system_message topic_type) user_input = some hint → hint ≠ "" →
      (render_text_tab remote topic_type user_input s).1 =
        SessionState.mk (s.text_responses ++ [(user_input, hint)])
          s.image_responses s.pdf_responses) ∧
    (∀ results : List String, ∀ hint : String,
      String.intercalate " " results ≠ "" →
      remote (system_message topic_type) (String.intercalate " " results) = some hint →
      hint ≠ "" →
      (render_image_tab remote topic_type (some (some results)) s).1 =
        SessionState.mk s.text_responses
          (s.image_responses ++ [(String.intercalate " " results, hint)])
          s.pdf_responses) ∧
    (∀ pages : List String, ∀ hint : String,
      pages.foldl (fun text page => text ++ page) "" ≠ "" →
      remote (system_message topic_type)
        (pages.foldl (fun text page => text ++ page) "") = some hint →
      hint ≠ "" →
      (render_pdf_tab remote topic_type (some (some pages)) s).1 =
        SessionState.mk s.text_responses s.image_responses
          (s.pdf_responses ++
            [(pages.foldl (fun text page => text ++ page) "", hint)])) := by
  refine ⟨render_text_tab_extends remote topic_type user_input s,
    render_image_tab_extends remote topic_type image_file s,
    render_pdf_tab_extends remote topic_type pdf_file s, ?_, ?_, ?_⟩
  · intro hint hu hr hh
    simp [render_text_tab, get_ai_response, display_response, hu, hr, hh]
  · intro results hint ht hr hh
    simp [render_image_tab, process_image, get_ai_response, display_response, ht, hr, hh]
  · intro pages hint ht hr hh
    simp [render_pdf_tab, extract_text_from_pdf, get_ai_response, display_response,
      ht, hr, hh]

/-- Witness for C5: one successful text run on an initially one-entry
store appends exactly the new pair. -/
theorem response_lists_append_only_witness :
    (render_text_tab (fun _ _ => some "h1") "General" "q1"
        (SessionState.mk [("q0", "h0")] [] [])).1 =
      SessionState.mk [("q0", "h0"), ("q1", "h1")] [] [] := by
  have h := (response_lists_append_only (fun _ _ => some "h1") "General" "q1"
    none none (SessionState.mk [("q0", "h0")] [] [])).2.2.2.1 "h1"
    (by decide) rfl (by decide)
  simpa using h

/-- Claim C6: when decoding an uploaded image or document raises, the
handler reports the error, records no remote call, appends nothing and
leaves every previously stored response unchanged. -/
theorem extraction_failure_reported (remote : String → String → Option String)
    (topic_type : String) (s : SessionState) :
    render_image_tab remote topic_type (some none) s =
      (s, [Effect.errorMsg "Error processing image with EasyOCR"]) ∧
    render_pdf_tab remote topic_type (some none) s =
      (s, [Effect.errorMsg "Error processing PDF"]) ∧
    noRemoteCall (render_image_tab remote topic_type (some none) s).2 = true ∧
    noRemoteCall (render_pdf_tab remote topic_type (some none) s).2 = true :=
  ⟨rfl, rfl, rfl, rfl⟩

/-- Claim C7: a blank text input produces the warning, records no remote
call and leaves the state unchanged. -/
theorem blank_text_input_warns (remote : String → String → Option String)
    (topic_type : String) (s : SessionState) :
    render_text_tab remote topic_type "" s =
      (s, [Effect.warningMsg "Please enter a question."]) ∧
    noRemoteCall (render_text_tab remote topic_type "" s).2 = true :=
  ⟨rfl, rfl⟩

/-- Claim C8: the stored entry always holds the full extracted string,
for every modality, while the rendered preview applies the 500-character
truncation; truncation affects only display. -/
theorem stored_entry_is_full_text (question hint : String) (s : SessionState) :
    (display_response s question hint "image").1.image_responses =
      s.image_responses ++ [(question, hint)] ∧
    (display_response s question hint "pdf").1.pdf_responses =
      s.pdf_responses ++ [(question, hint)] ∧
    (display_response s question hint "text").1.text_responses =
      s.text_responses ++ [(question, hint)] ∧
    (display_response s question hint "image").2 =
      [Effect.shownPreview (preview question), Effect.shownHint hint] ∧
    (display_response s question hint "pdf").2 =
      [Effect.shownPreview (preview question), Effect.shownHint hint] :=
  ⟨rfl, rfl, rfl, rfl, rfl⟩

/-- Claim C9: when the model call succeeds but returns the empty string,
the text handler stores nothing, displays nothing and warns nothing; the
only recorded effect is the remote call itself. -/
theorem empty_model_response_silent (remote : String → String → Option String)
    (topic_type user_input : String) (s : SessionState)
    (hu : user_input ≠ "")
    (hr : remote (system_message topic_type) user_input = some "") :
    (render_text_tab remote topic_type user_input s).1 = s ∧
    (render_text_tab remote topic_type user_input s).2 =
      [Effect.remoteCall (system_message topic_type) user_input] := by
  constructor
  · simp [render_text_tab, get_ai_response, hu, hr]
  · simp [render_text_tab, get_ai_response, hu, hr]

/-- Witness for C9 with a remote stub that returns the empty string. -/
theorem empty_model_response_silent_witness :
    (render_text_tab (fun _ _ => some "") "Math" "help" (SessionState.mk [] [] [])).1 =
      SessionState.mk [] [] [] :=
  (empty_model_response_silent (fun _ _ => some "") "Math" "help"
    (SessionState.mk [] [] []) (by decide) rfl).1

/-- Claim C10: when OCR or PDF extraction succeeds but yields the empty
string, the handler is a silent no-op: no remote call, no append, no
warning, no error. -/
theorem empty_extraction_silent (remote : String → String → Option String)
    (topic_type : String) (s : SessionState) (results pages : List String)
    (h1 : String.intercalate " " results = "")
    (h2 : pages.foldl (fun text page => text ++ page) "" = "") :
    render_image_tab remote topic_type (some (some results)) s = (s, []) ∧
    render_pdf_tab remote topic_type (some (some pages)) s = (s, []) := by
  constructor
  · simp [render_image_tab, process_image, h1]
  · simp [render_pdf_tab, extract_text_from_pdf, h2]

/-- Witness for C10 on an image and a document with no recognizable
text. -/
theorem empty_extraction_silent_witness :
    render_image_tab (fun _ _ => some "hi") "Math" (some (some []))
      (SessionState.mk [] [] []) = (SessionState.mk [] [] [], []) :=
  (empty_extraction_silent (fun _ _ => some "hi") "Math"
    (SessionState.mk [] [] []) [] [] rfl rfl).1
